import Mathlib

/-!
Verification of the GlasApp news-aggregator pipeline
(`src/news-aggregator/`).  The Python modules are shallowly embedded:
dictionaries become structures with `Option` fields, JSON values become an
inductive `Json` type (numbers modelled as `Int`), and every external call
(OpenAI completion, `json.loads`, HTTP POST, scraping library) is passed in
as an explicit oracle argument whose result type mirrors the Python
behaviour (`Except Unit _` when the call may raise, `Option _` when it may
fail to produce data).
-/

namespace GlasApp

/-- JSON values as produced by `json.loads`; numbers are modelled as `Int`. -/
inductive Json where
  | null : Json
  | bool : Bool → Json
  | num : Int → Json
  | str : String → Json
  | arr : List Json → Json
  | obj : List (String × Json) → Json

/-- Python truthiness of a JSON value (`if x:`). -/
def Json.truthy : Json → Bool
  | .null => false
  | .bool b => b
  | .num n => n ≠ 0
  | .str s => s ≠ ""
  | .arr xs => !xs.isEmpty
  | .obj fs => !fs.isEmpty

/-- Embeds `dict.get(k)` on a JSON object: `none` when the key is absent. -/
def Json.lookupKey (fields : List (String × Json)) (k : String) : Option Json :=
  List.lookup k fields

/-- Truthiness of an `Option Json` (Python `None` is falsy). -/
def Json.truthyOpt : Option Json → Bool
  | none => false
  | some j => j.truthy

/-- Result of a successful scrape, mirroring the dict returned by
`ContentScraper._scrape_with_newspaper` / `_scrape_with_beautifulsoup`. -/
structure ScrapedData where
  content : String
  title : String := ""
  authors : String := "Unknown"
  publish_date : Option String := none
  url : String := ""
  top_image : Option String := none

/-- An article record: the Python dict threaded through the pipeline.
Absent keys are `none`.  `ai_score` holds the numeric `overall_score`
attached by the scorer; `ai_summary`, `score_breakdown`, `td_name` and
`party` hold the raw JSON values the scorer copies out of the model
response. -/
structure Article where
  link : Option String := none
  title : Option String := none
  summary : Option String := none
  source : Option String := none
  published : Option String := none
  content : Option String := none
  scraped_content : Option ScrapedData := none
  ai_score : Option Int := none
  ai_summary : Option Json := none
  score_breakdown : Option Json := none
  mentions_td : Option Bool := none
  td_name : Option Json := none
  party : Option Json := none
  ai_generated_image : Option String := none
  imageUrl : Option String := none

/-! ### DatabaseChecker (`database_checker.py`)

`get_existing_urls` queries Supabase for recent article URLs; on any
exception it returns the empty set (lines 56-59).  The query result is the
oracle: `none` models the raised exception, `some urls` the rows
returned. -/

/-- Embeds `DatabaseChecker.get_existing_urls`: the set of existing URLs, with the
fail-open `except` branch returning the empty set. -/
def get_existing_urls (queryResult : Option (List String)) : List String :=
  match queryResult with
  | some urls => urls
  | none => []

/-- Embeds `DatabaseChecker.filter_new_articles` (lines 61-88): keep the articles
whose `link` (defaulting to `""`) is not among the existing URLs. -/
def filter_new_articles (queryResult : Option (List String))
    (articles : List Article) : List Article :=
  if articles.isEmpty then []
  else
    let existing_urls := get_existing_urls queryResult
    articles.filter (fun a => !(existing_urls.contains (a.link.getD "")))

/-! ### LLMArticleFilter (`llm_article_filter.py`)

The model call and the fence-stripping + `json.loads` step are external;
the oracle result of a batch is `Except Unit (Option Json)`: `.error ()` models
an exception raised while building the prompt or calling OpenAI,
`.ok none` a response text that `json.loads` cannot decode, and
`.ok (some j)` the decoded JSON value. -/

/-- One entry of `[int(i) for i in relevant_indices if isinstance(i, (int, str))
and str(i).isdigit()]`: non-negative numbers and all-digit strings survive,
everything else (including booleans, whose `str` is not a digit string) is
dropped. -/
def toValidIndex : Json → Option Nat
  | .num n => if 0 ≤ n then some n.toNat else none
  | .str s => if s ≠ "" && s.all Char.isDigit then s.toNat? else none
  | _ => none

/-- Embeds `LLMArticleFilter._parse_filter_results` (lines 141-160), applied to the
decoded response.  A decode failure, a non-object value, or a non-array
`relevant` field all end in the `except` branch (or iterate nothing) and
yield `[]`. -/
def parse_filter_results (decoded : Option Json) : List Nat :=
  match decoded with
  | some (.obj fields) =>
    match (Json.lookupKey fields "relevant").getD (.arr []) with
    | .arr xs => xs.filterMap toValidIndex
    | _ => []
  | _ => []

/-- Embeds `LLMArticleFilter._filter_batch` (lines 54-85): on an exception the whole
batch is returned (the `except` safe fallback); otherwise the articles at
the parsed indices (those `< len(articles)`) are returned. -/
def filter_batch (callResult : Except Unit (Option Json))
    (articles : List Article) : List Article :=
  match callResult with
  | .error _ => articles
  | .ok decoded =>
    let relevant_indices := parse_filter_results decoded
    relevant_indices.filterMap
      (fun i => if i < articles.length then articles[i]? else none)

/-- The batches produced by `for i in range(0, len(articles), batch_size):
batch = articles[i:i+batch_size]`.  Python raises `ValueError` on step 0;
that case is modelled as producing no batches. -/
def batchesOf (B : Nat) : List Article → List (List Article)
  | [] => []
  | a :: rest =>
    match B with
    | 0 => []
    | B' + 1 => (a :: rest).take (B' + 1) :: batchesOf B (rest.drop B')
termination_by l => l.length
decreasing_by
  simp only [List.length_drop, List.length_cons]
  omega

/-- Embeds `LLMArticleFilter.filter_articles` (lines 26-52): empty input returns
immediately; otherwise each batch is filtered and the results concatenated.
`call` is the per-batch model-call oracle. -/
def filter_articles (call : List Article → Except Unit (Option Json))
    (articles : List Article) (batch_size : Nat := 50) : List Article :=
  if articles.isEmpty then []
  else (batchesOf batch_size articles).flatMap (fun b => filter_batch (call b) b)

/-! ### ContentScraper (`content_scraper.py`)

The two scraping strategies are network-bound library calls; each is an
oracle `String → String → Option ScrapedData` (url, fallback title) whose
`none` models both a raised-and-caught exception and an empty-text result
(both return `None` in the Python helpers). -/

/-- Embeds `config.get("filtering", ...).get("min_content_length", 200)`. -/
structure ScraperConfig where
  min_content_length : Nat := 200

/-- Embeds the Python string method `url.startswith("http")`, computed on
the character lists. -/
def startsWithHttp (url : String) : Bool :=
  "http".toList.isPrefixOf url.toList

/-- Embeds `ContentScraper.scrape_article` (lines 27-50): invalid URLs are rejected;
strategy 1 (`newspaper3k`) is accepted when its content length is at least
the threshold, otherwise strategy 2 (`BeautifulSoup`) is tried under the
same gate, and failure of both returns `none`. -/
def scrape_article (cfg : ScraperConfig)
    (strat1 strat2 : String → String → Option ScrapedData)
    (url : String) (title : String) : Option ScrapedData :=
  if url = "" || !startsWithHttp url then none
  else
    match strat1 url title with
    | some result =>
      if cfg.min_content_length ≤ result.content.length then some result
      else
        match strat2 url title with
        | some result2 =>
          if cfg.min_content_length ≤ result2.content.length then some result2
          else none
        | none => none
    | none =>
      match strat2 url title with
      | some result2 =>
        if cfg.min_content_length ≤ result2.content.length then some result2
        else none
      | none => none

/-- Attaching a scrape result to an article
(the assignments to `scraped_content` and `content` on lines 164-165). -/
def attachScrape (a : Article) (sd : ScrapedData) : Article :=
  { a with scraped_content := some sd, content := some sd.content }

/-- Embeds `ContentScraper.scrape_batch` (lines 143-170): every input article has
`scrape_article` attempted on its link and title; successes are enriched and
kept, failures dropped. -/
def scrape_batch (cfg : ScraperConfig)
    (strat1 strat2 : String → String → Option ScrapedData)
    (articles : List Article) : List Article :=
  match articles with
  | [] => []
  | a :: rest =>
    match scrape_article cfg strat1 strat2 (a.link.getD "") (a.title.getD "") with
    | some sd => attachScrape a sd :: scrape_batch cfg strat1 strat2 rest
    | none => scrape_batch cfg strat1 strat2 rest

/-- Step 3 of `IrishPoliticsAggregator.run_daily_aggregation` (line 133):
`articles_to_scrape = filtered_articles[:30]` — only the first 30 surviving
articles are handed to the scraper. -/
def articlesToScrape (filtered_articles : List Article) : List Article :=
  filtered_articles.take 30

/-- The extraction stage of the pipeline (lines 133-134): scrape the first 30
filtered articles. -/
def scrapeStage (cfg : ScraperConfig)
    (strat1 strat2 : String → String → Option ScrapedData)
    (filtered_articles : List Article) : List Article :=
  scrape_batch cfg strat1 strat2 (articlesToScrape filtered_articles)

/-! ### AIScorer (`ai_scorer.py`)

The completion call plus fence-stripping plus `json.loads` is the oracle
`Article → Except Unit (Option Json)`: `.error ()` a raised exception,
`.ok none` undecodable text, `.ok (some j)` the decoded value. -/

/-- Embeds `AIScorer._parse_score_response` (lines 89-114) applied to the decoded
response: the object is returned only when the keys `summary`, `scores` and
`overall_score` are all present; a decode failure or a non-object yields
`none` (a non-dict would fail the key test or blow up downstream inside the
enclosing `try` of the caller, with the same observable result). -/
def parse_score_response (decoded : Option Json) :
    Option (List (String × Json)) :=
  match decoded with
  | some (.obj fields) =>
    if (Json.lookupKey fields "summary").isSome
        && (Json.lookupKey fields "scores").isSome
        && (Json.lookupKey fields "overall_score").isSome
    then some fields else none
  | _ => none

/-- Embeds `AIScorer.score_article` (lines 23-87): a call exception or a parse
failure yields `none`; otherwise `ai_score`, `ai_summary` and
`score_breakdown` are attached, and when the `mentions_td` of the response is
truthy so are `mentions_td`, `td_name` and `party`.  A non-numeric
`overall_score` makes the `:.1f` log format on line 79 raise inside the
`try`, so it too yields `none`. -/
def score_article (call : Article → Except Unit (Option Json))
    (article : Article) : Option Article :=
  match call article with
  | .error _ => none
  | .ok decoded =>
    match parse_score_response decoded with
    | none => none
    | some score_data =>
      match Json.lookupKey score_data "overall_score" with
      | some (.num n) =>
        let a := { article with
          ai_score := some n,
          ai_summary := Json.lookupKey score_data "summary",
          score_breakdown := Json.lookupKey score_data "scores" }
        if Json.truthyOpt (Json.lookupKey score_data "mentions_td") then
          some { a with
            mentions_td := some true,
            td_name := Json.lookupKey score_data "td_name",
            party := Json.lookupKey score_data "party" }
        else some a
      | _ => none

/-- Embeds `AIScorer.score_batch` (lines 116-137): score each article, keeping only
the successes. -/
def score_batch (call : Article → Except Unit (Option Json))
    (articles : List Article) : List Article :=
  match articles with
  | [] => []
  | a :: rest =>
    match score_article call a with
    | some scored => scored :: score_batch call rest
    | none => score_batch call rest

/-! ### Ranker (`ai_scorer.py`, `get_top_articles`) -/

/-- The sort key `lambda x: x.get("ai_score", 0)`. -/
def sortKey (a : Article) : Int := a.ai_score.getD 0

/-- Stable descending insertion: `a` goes in front of the first element whose
key is at most `sortKey a`, so earlier input elements stay ahead of
equal-keyed later ones. -/
def insertByScore (a : Article) : List Article → List Article
  | [] => [a]
  | b :: bs =>
    if sortKey b ≤ sortKey a then a :: b :: bs else b :: insertByScore a bs

/-- The stable descending sort `sorted(articles, key=..., reverse=True)`
(the Python builtin `sorted` is guaranteed stable, also with `reverse=True`). -/
def sortByScoreDesc : List Article → List Article
  | [] => []
  | a :: rest => insertByScore a (sortByScoreDesc rest)

/-- Embeds `AIScorer.get_top_articles` (lines 139-161): sort descending by
`ai_score` (default 0) and return the first `count` (default 5). -/
def get_top_articles (articles : List Article) (count : Nat := 5) :
    List Article :=
  (sortByScoreDesc articles).take count

/-! ### AIImageGenerator (`ai_image_generator.py`)

The whole `try` body of `generate_article_image` (prompt building, DALL-E
call, optional local save — each with its own inner fallback) is the oracle
`Article → Option String`: `some p` the returned path or URL, `none` an
exception escaping the `try`. -/

/-- Embeds `AIImageGenerator.generate_article_image` (lines 29-85): on an exception
the `except` branch returns
the `top_image` of `scraped_content` (absent keys giving `None`) as fallback. -/
def generate_article_image (tryResult : Option String) (article : Article) :
    Option String :=
  match tryResult with
  | some p => some p
  | none => article.scraped_content.bind (fun sd => sd.top_image)

/-- Python truthiness of an optional string (`None` and the empty string are falsy). -/
def truthyStr : Option String → Bool
  | none => false
  | some s => s ≠ ""

/-- The per-article body of `AIImageGenerator.generate_batch` (lines
180-186): a truthy image path is stored under `ai_generated_image`, and also
under `imageUrl` when that key was falsy. -/
def annotateImage (tryResult : Option String) (a : Article) : Article :=
  match generate_article_image tryResult a with
  | some image_path =>
    if image_path ≠ "" then
      { a with
        ai_generated_image := some image_path,
        imageUrl := if truthyStr a.imageUrl then a.imageUrl else some image_path }
    else a
  | none => a

/-- Embeds `AIImageGenerator.generate_batch` (lines 177-188): annotate each article
in place and return the same list. -/
def generate_batch (tryResult : Article → Option String)
    (articles : List Article) : List Article :=
  articles.map (fun a => annotateImage (tryResult a) a)

/-- The annotation-free projection of an article: every field except the two
written by the image stage. -/
def imageStripped (a : Article) : Article :=
  { a with ai_generated_image := none, imageUrl := none }

/-! ### PersistenceGateway (`irish_politics_aggregator.py`,
`_save_articles_to_database`) -/

/-- The normalized payload built on lines 205-220. -/
structure ArticlePayload where
  url : String
  title : String
  content : String
  source : String
  published_date : String
  ai_summary : Option Json
  impact_score : Int
  score_breakdown : Option Json
  processed : Bool
  politician_name : Option Json := none
  party : Option Json := none

/-- Building the payload for one article (lines 205-220).  `now` stands for
`datetime.now().isoformat()`.  The politician fields are added only when
the `mentions_td` key of the `score_breakdown` dict of the article is truthy — note
that this reads from the `score_breakdown` dict, not from the top-level
`mentions_td` flag.  When `score_breakdown` is present but not a dict, the
`.get` call raises (caught per-article), modelled as `none`. -/
def article_payload (now : String) (a : Article) : Option ArticlePayload :=
  let base : ArticlePayload :=
    { url := a.link.getD ""
      title := a.title.getD ""
      content := a.content.getD ""
      source := a.source.getD ""
      published_date := a.published.getD now
      ai_summary := a.ai_summary
      impact_score := a.ai_score.getD 0
      score_breakdown := a.score_breakdown
      processed := true }
  match a.score_breakdown with
  | none => some base
  | some (.obj fields) =>
    if Json.truthyOpt (Json.lookupKey fields "mentions_td") then
      some { base with
        politician_name := Json.lookupKey fields "td_name",
        party := Json.lookupKey fields "party" }
    else some base
  | some _ => none

/-- Whether the save of one article is counted (lines 223-233): the POST oracle
returns `none` for a raised exception and `some status` otherwise; the save
counts exactly when `status == 201 or status == 200`. -/
def savedOne (post : ArticlePayload → Option Nat) (now : String)
    (a : Article) : Nat :=
  match article_payload now a with
  | none => 0
  | some payload =>
    match post payload with
    | none => 0
    | some status => if status = 201 || status = 200 then 1 else 0

/-- Embeds `IrishPoliticsAggregator._save_articles_to_database` (lines 198-238):
every article is attempted in turn, failures never abort the loop, and the
count of successes is returned. -/
def save_articles_to_database (post : ArticlePayload → Option Nat)
    (now : String) (articles : List Article) : Nat :=
  match articles with
  | [] => 0
  | a :: rest => savedOne post now a + save_articles_to_database post now rest

/-! ### Sample records used in concrete evaluations -/

/-- An article with every key absent. -/
def emptyArticle : Article := {}

/-- A sample article with a link. -/
def linkedArticle : Article := { link := some "https://example.ie/a" }

/-- A second sample article with a different link. -/
def linkedArticle2 : Article := { link := some "https://example.ie/b" }

/-! ### Theorems -/

/-- C3: the deduplication gate keeps exactly the articles whose link is not
in the existing-link set returned by the datastore query (membership is
preserved both ways and relative order is kept), and when the datastore
query fails the existing set is treated as empty, so the post-gate list
equals the pre-gate list. -/
theorem dedup_gate_correct (queryResult : Option (List String))
    (articles : List Article) :
    (∀ a, a ∈ filter_new_articles queryResult articles ↔
      a ∈ articles ∧ (a.link.getD "") ∉ get_existing_urls queryResult) ∧
    (filter_new_articles queryResult articles).Sublist articles ∧
    (queryResult = none → filter_new_articles queryResult articles = articles) := by
  unfold filter_new_articles
  by_cases h : articles.isEmpty
  · rw [if_pos h]
    rw [List.isEmpty_iff] at h
    subst h
    exact ⟨by simp, List.Sublist.refl _, fun _ => rfl⟩
  · rw [if_neg h]
    refine ⟨?_, List.filter_sublist _, ?_⟩
    · intro a
      simp [List.mem_filter]
    · intro hq
      subst hq
      simp [get_existing_urls]

/-- Witness for C3: with a failed datastore query, a concrete one-article
list passes the gate unchanged. -/
theorem dedup_gate_correct_witness :
    filter_new_articles none [linkedArticle] = [linkedArticle] :=
  (dedup_gate_correct none [linkedArticle]).2.2 rfl

/-- C1: evaluation of the relevance filter at a failing input.  A raised
model call (left conjunct of the second part) does pass the batch through,
but a response that cannot be decoded into JSON makes
`_parse_filter_results` swallow the error and return the empty index list,
so `_filter_batch` returns the empty list: the two-article batch is dropped,
not passed through, and its article count changes from 2 to 0. -/
theorem filter_parse_failure_drops_batch :
    filter_batch (.ok none) [linkedArticle, linkedArticle2] = [] ∧
    (filter_batch (.ok none) [linkedArticle, linkedArticle2]).length = 0 ∧
    ([linkedArticle, linkedArticle2] : List Article).length = 2 ∧
    filter_batch (.error ()) [linkedArticle, linkedArticle2] =
      [linkedArticle, linkedArticle2] :=
  ⟨rfl, rfl, rfl, rfl⟩

/-- Helper: the number of batches is the ceiling of the article count over
the batch size. -/
theorem batchesOf_length (B : Nat) (hB : 0 < B) (l : List Article) :
    (batchesOf B l).length = (l.length + B - 1) / B := by
  suffices h : ∀ n (l : List Article), l.length = n →
      (batchesOf B l).length = (l.length + B - 1) / B from h l.length l rfl
  intro n
  induction n using Nat.strong_induction_on with
  | _ n ih =>
    intro l hn
    match l with
    | [] =>
      simp only [batchesOf, List.length_nil]
      rw [Nat.div_eq_of_lt (by omega)]
    | a :: rest =>
      match B, hB with
      | B' + 1, _ =>
        simp only [batchesOf, List.length_cons]
        rw [ih (rest.drop B').length (by simp at hn ⊢; omega) (rest.drop B') rfl]
        simp only [List.length_drop]
        by_cases hle : B' ≤ rest.length
        · have h1 : rest.length - B' + (B' + 1) - 1 = rest.length := by omega
          have h2 : rest.length + 1 + (B' + 1) - 1 = rest.length + (B' + 1) := by
            omega
          rw [h1, h2, Nat.add_div_right _ (by omega)]
        · have h1 : rest.length - B' = 0 := by omega
          have h2 : rest.length + 1 + (B' + 1) - 1 = rest.length + (B' + 1) := by
            omega
          rw [h1, h2, Nat.add_div_right _ (by omega)]
          rw [Nat.div_eq_of_lt (by omega), Nat.div_eq_of_lt (by omega)]

/-- Helper: concatenating the batches gives back the original list, so each
article occurs in exactly one batch, at exactly one position. -/
theorem batchesOf_flatten (B : Nat) (hB : 0 < B) (l : List Article) :
    (batchesOf B l).flatMap id = l := by
  suffices h : ∀ n (l : List Article), l.length = n →
      (batchesOf B l).flatMap id = l from h l.length l rfl
  intro n
  induction n using Nat.strong_induction_on with
  | _ n ih =>
    intro l hn
    match l with
    | [] => simp [batchesOf]
    | a :: rest =>
      match B, hB with
      | B' + 1, _ =>
        simp only [batchesOf, List.flatMap_cons, id]
        rw [ih (rest.drop B').length (by simp at hn ⊢; omega) (rest.drop B') rfl]
        have hdrop : rest.drop B' = (a :: rest).drop (B' + 1) := rfl
        rw [hdrop, List.take_append_drop]

/-- C9: for N candidate articles and batch size B > 0 (default 50), the
relevance filter issues exactly one model request per batch, the number of
batches is the ceiling of N over B, concatenating the batches restores the
input (every article is in exactly one batch), and the filter output is the
concatenation of the per-batch filter results. -/
theorem filter_batch_sizing (call : List Article → Except Unit (Option Json))
    (articles : List Article) (B : Nat) (hB : 0 < B) :
    (batchesOf B articles).length = (articles.length + B - 1) / B ∧
    (batchesOf B articles).flatMap id = articles ∧
    filter_articles call articles B =
      (batchesOf B articles).flatMap (fun b => filter_batch (call b) b) := by
  refine ⟨batchesOf_length B hB articles, batchesOf_flatten B hB articles, ?_⟩
  unfold filter_articles
  by_cases h : articles.isEmpty
  · rw [if_pos h]
    rw [List.isEmpty_iff] at h
    subst h
    simp [batchesOf]
  · rw [if_neg h]

/-- Witness for C9: seven articles at batch size 3 make three batches whose
concatenation is the input. -/
theorem filter_batch_sizing_witness :
    (batchesOf 3 (List.replicate 7 emptyArticle)).length =
      ((List.replicate 7 emptyArticle : List Article).length + 3 - 1) / 3 ∧
    (batchesOf 3 (List.replicate 7 emptyArticle)).flatMap id =
      List.replicate 7 emptyArticle ∧
    filter_articles (fun _ => .error ()) (List.replicate 7 emptyArticle) 3 =
      (batchesOf 3 (List.replicate 7 emptyArticle)).flatMap
        (fun b => filter_batch (.error ()) b) :=
  filter_batch_sizing (fun _ => .error ()) (List.replicate 7 emptyArticle) 3
    (by decide)

/-- C4: for a valid URL, the minimum-content-length gate (default 200) is
applied after each strategy: strategy-1 content at or above the threshold is
accepted (in particular content of exactly the threshold length), content
strictly below it hands the decision to the strategy-2 gate, and content
strictly below the threshold from both strategies drops the article. -/
theorem extraction_gate (cfg : ScraperConfig)
    (strat1 strat2 : String → String → Option ScrapedData)
    (url title : String)
    (hurl : (url = "" || !startsWithHttp url) = false) :
    (∀ r1, strat1 url title = some r1 →
      cfg.min_content_length ≤ r1.content.length →
      scrape_article cfg strat1 strat2 url title = some r1) ∧
    (∀ r1, strat1 url title = some r1 →
      r1.content.length < cfg.min_content_length →
      scrape_article cfg strat1 strat2 url title =
        (match strat2 url title with
         | some r2 =>
           if cfg.min_content_length ≤ r2.content.length then some r2 else none
         | none => none)) ∧
    (∀ r1 r2, strat1 url title = some r1 → strat2 url title = some r2 →
      r1.content.length < cfg.min_content_length →
      r2.content.length < cfg.min_content_length →
      scrape_article cfg strat1 strat2 url title = none) ∧
    (∀ r1, strat1 url title = some r1 →
      r1.content.length = cfg.min_content_length →
      scrape_article cfg strat1 strat2 url title = some r1) ∧
    ({} : ScraperConfig).min_content_length = 200 := by
  refine ⟨?_, ?_, ?_, ?_, rfl⟩
  · intro r1 h1 hlen
    simp [scrape_article, hurl, h1, hlen]
  · intro r1 h1 hlen
    simp [scrape_article, hurl, h1, Nat.not_le.mpr hlen]
  · intro r1 r2 h1 h2 hlen1 hlen2
    simp [scrape_article, hurl, h1, h2, Nat.not_le.mpr hlen1,
      Nat.not_le.mpr hlen2]
  · intro r1 h1 hlen
    simp [scrape_article, hurl, h1, hlen.ge]

/-- A scrape result whose content has exactly 200 characters. -/
def exact200Scrape : ScrapedData :=
  { content := String.mk (List.replicate 200 'a') }

/-- Witness for C4: content of exactly the default threshold length (200)
from strategy 1 is accepted. -/
theorem extraction_gate_witness :
    scrape_article {} (fun _ _ => some exact200Scrape) (fun _ _ => none)
      "https://example.ie/a" "t" = some exact200Scrape :=
  (extraction_gate {} (fun _ _ => some exact200Scrape) (fun _ _ => none)
      "https://example.ie/a" "t" (by decide)).2.2.2.1 exact200Scrape rfl rfl

/-- An article sitting beyond the 30-article scraping cap. -/
def tailArticle : Article := { link := some "https://example.ie/skipped" }

/-- Thirty empty articles followed by `tailArticle`: a surviving set of 31. -/
def thirtyOneArticles : List Article :=
  List.replicate 30 ({} : Article) ++ [tailArticle]

/-- Counterexample to C5: with 31 articles surviving the relevance filter,
the list handed to the scraper is not the surviving set — the 31st surviving
article is never passed to content extraction. -/
theorem extraction_skips_article :
    tailArticle ∈ thirtyOneArticles ∧
    tailArticle ∉ articlesToScrape thirtyOneArticles := by
  constructor
  · unfold thirtyOneArticles
    exact List.mem_append_right _ (List.mem_singleton.mpr rfl)
  · have hA : articlesToScrape thirtyOneArticles =
        List.replicate 30 ({} : Article) := rfl
    rw [hA]
    intro hmem
    have heq := List.eq_of_mem_replicate hmem
    have hlink := congrArg Article.link heq
    simp [tailArticle] at hlink

/-- Helper: the scrape batch examines every article of its input, keeping
exactly the enriched successes in input order. -/
theorem scrape_batch_eq_filterMap (cfg : ScraperConfig)
    (strat1 strat2 : String → String → Option ScrapedData) :
    ∀ l : List Article, scrape_batch cfg strat1 strat2 l =
      l.filterMap (fun a =>
        (scrape_article cfg strat1 strat2 (a.link.getD "")
          (a.title.getD "")).map (attachScrape a)) := by
  intro l
  induction l with
  | nil => rfl
  | cons a rest ih =>
    simp only [scrape_batch, List.filterMap_cons]
    cases scrape_article cfg strat1 strat2 (a.link.getD "") (a.title.getD "") with
    | none => simpa using ih
    | some sd => simpa using ih

/-- C5 (amended): the extraction stage consumes exactly the first
min(30, N) articles of the filter stage's surviving set — a prefix, in
order — and attempts extraction on every article of that prefix; when at
most 30 articles survive the filter, that is the entire surviving set. -/
theorem scrape_stage_consumes_first30 (cfg : ScraperConfig)
    (strat1 strat2 : String → String → Option ScrapedData)
    (filtered : List Article) :
    (∃ rest, filtered = articlesToScrape filtered ++ rest) ∧
    (articlesToScrape filtered).length = min 30 filtered.length ∧
    (filtered.length ≤ 30 → articlesToScrape filtered = filtered) ∧
    scrapeStage cfg strat1 strat2 filtered =
      (articlesToScrape filtered).filterMap (fun a =>
        (scrape_article cfg strat1 strat2 (a.link.getD "")
          (a.title.getD "")).map (attachScrape a)) := by
  refine ⟨⟨filtered.drop 30, (List.take_append_drop 30 filtered).symm⟩,
    List.length_take 30 filtered, ?_, ?_⟩
  · intro hle
    exact List.take_of_length_le hle
  · exact scrape_batch_eq_filterMap cfg strat1 strat2 (articlesToScrape filtered)

/-- Witness for C5 (amended): a single surviving article is consumed whole
by the extraction stage. -/
theorem scrape_stage_consumes_first30_witness :
    articlesToScrape [linkedArticle] = [linkedArticle] :=
  (scrape_stage_consumes_first30 {} (fun _ _ => none) (fun _ _ => none)
      [linkedArticle]).2.2.1 (by decide)

/-- Counterexample to C7: a write answered with status 204 — a 2xx status —
is not counted as a success. -/
theorem save_204_not_success :
    200 ≤ 204 ∧ 204 < 300 ∧
    save_articles_to_database (fun _ => some 204) "2025-01-01" [linkedArticle]
      = 0 :=
  ⟨by decide, by decide, rfl⟩

/-- C7 (amended): a remote persistence write counts as a success exactly when
the endpoint returns status 200 or 201; a payload-building or request
exception, or any other status, contributes zero, and no outcome for one
article prevents submission of the remaining articles (the count over a list
is the sum of independent per-article contributions). -/
theorem save_success_iff (post : ArticlePayload → Option Nat) (now : String)
    (a : Article) (rest : List Article) :
    save_articles_to_database post now (a :: rest) =
      savedOne post now a + save_articles_to_database post now rest ∧
    (∀ p status, article_payload now a = some p → post p = some status →
      (savedOne post now a = 1 ↔ (status = 200 ∨ status = 201))) ∧
    (article_payload now a = none → savedOne post now a = 0) ∧
    (∀ p, article_payload now a = some p → post p = none →
      savedOne post now a = 0) := by
  refine ⟨rfl, ?_, ?_, ?_⟩
  · intro p status hp hpost
    simp only [savedOne, hp, hpost]
    constructor
    · intro h1
      by_cases h200 : status = 200
      · exact Or.inl h200
      · by_cases h201 : status = 201
        · exact Or.inr h201
        · simp [h200, h201] at h1
    · intro h
      rcases h with h | h <;> simp [h]
  · intro hp
    simp [savedOne, hp]
  · intro p hp hpost
    simp [savedOne, hp, hpost]

/-- The payload built from an article with every key absent. -/
def emptyPayload (now : String) : ArticlePayload :=
  { url := ""
    title := ""
    content := ""
    source := ""
    published_date := now
    ai_summary := none
    impact_score := 0
    score_breakdown := none
    processed := true }

/-- Witness for C7 (amended): a write answered with status 200 is counted. -/
theorem save_success_iff_witness :
    savedOne (fun _ => some 200) "2025-01-01" emptyArticle = 1 :=
  ((save_success_iff (fun _ => some 200) "2025-01-01" emptyArticle []).2.1
    (emptyPayload "2025-01-01") 200 rfl rfl).mpr (Or.inl rfl)

/-- A model response carrying the TD flag, name and party alongside the
required scoring keys, as described by the scoring prompt contract. -/
def tdResponse : Json :=
  .obj [("summary", .str "s"), ("scores", .obj [("impact", .num 5)]),
    ("overall_score", .num 80), ("mentions_td", .bool true),
    ("td_name", .str "Micheal Martin"), ("party", .str "Fianna Fail")]

/-- The article produced by scoring `emptyArticle` against `tdResponse`. -/
def tdScoredArticle : Article :=
  { ai_score := some 80
    ai_summary := some (.str "s")
    score_breakdown := some (.obj [("impact", .num 5)])
    mentions_td := some true
    td_name := some (.str "Micheal Martin")
    party := some (.str "Fianna Fail") }

/-- C8 at its failing input: the scorer reports a mentioned TD by setting
the top-level `mentions_td`, `td_name` and `party` keys of the article, but
the persistence payload builder looks for `mentions_td` inside the
`score_breakdown` dict (which holds only the criterion sub-scores), so the
submitted payload carries no politician name and no party. -/
theorem mentions_td_payload_missing :
    score_article (fun _ => .ok (some tdResponse)) emptyArticle =
      some tdScoredArticle ∧
    tdScoredArticle.mentions_td = some true ∧
    tdScoredArticle.td_name = some (.str "Micheal Martin") ∧
    tdScoredArticle.party = some (.str "Fianna Fail") ∧
    (article_payload "2025-01-01" tdScoredArticle).map
      (fun p => (p.politician_name, p.party)) = some (none, none) :=
  ⟨rfl, rfl, rfl, rfl, rfl⟩

/-- Helper: the surviving count of a score batch counts exactly the
successfully scored articles. -/
theorem score_batch_length (call : Article → Except Unit (Option Json)) :
    ∀ articles : List Article, (score_batch call articles).length =
      articles.countP (fun x => (score_article call x).isSome) := by
  intro articles
  induction articles with
  | nil => rfl
  | cons a rest ih =>
    simp only [score_batch, List.countP_cons]
    cases h : score_article call a with
    | none => simp [h, ih]
    | some scored => simp [h, ih]

/-- C2: the scorer is fail-closed.  A raised model call, an undecodable
response, or a decoded object missing any of the required keys (`summary`,
`scores`, `overall_score`) drops the article; with all required keys
present (and a numeric overall score) the article survives with `ai_score`,
`ai_summary` and `score_breakdown` attached.  In the batch, a dropped head
article leaves exactly the scored rest (count reduced by exactly one
relative to a scored head), and the surviving count is the count of
successfully scored articles. -/
theorem scorer_fail_closed (call : Article → Except Unit (Option Json))
    (a : Article) (articles : List Article) :
    (call a = .error () → score_article call a = none) ∧
    (call a = .ok none → score_article call a = none) ∧
    (∀ fields, call a = .ok (some (.obj fields)) →
      (Json.lookupKey fields "summary" = none ∨
       Json.lookupKey fields "scores" = none ∨
       Json.lookupKey fields "overall_score" = none) →
      score_article call a = none) ∧
    (∀ fields n, call a = .ok (some (.obj fields)) →
      Json.lookupKey fields "summary" ≠ none →
      Json.lookupKey fields "scores" ≠ none →
      Json.lookupKey fields "overall_score" = some (.num n) →
      ∃ scored, score_article call a = some scored ∧
        scored.ai_score = some n ∧
        scored.ai_summary = Json.lookupKey fields "summary" ∧
        scored.score_breakdown = Json.lookupKey fields "scores") ∧
    (score_article call a = none →
      score_batch call (a :: articles) = score_batch call articles) ∧
    (∀ scored, score_article call a = some scored →
      score_batch call (a :: articles) =
        scored :: score_batch call articles) ∧
    (score_batch call articles).length =
      articles.countP (fun x => (score_article call x).isSome) := by
  refine ⟨?_, ?_, ?_, ?_, ?_, ?_, score_batch_length call articles⟩
  · intro h
    simp [score_article, h]
  · intro h
    simp [score_article, h, parse_score_response]
  · intro fields h hmiss
    rcases hmiss with hm | hm | hm <;>
      simp [score_article, h, parse_score_response, hm]
  · intro fields n h hsum hsc hov
    rw [Option.ne_none_iff_isSome] at hsum hsc
    simp only [score_article, h, parse_score_response, hsum, hsc, hov,
      Option.isSome_some, Bool.and_self, if_true]
    by_cases htd : Json.truthyOpt (Json.lookupKey fields "mentions_td") = true
    · rw [if_pos htd]
      exact ⟨_, rfl, rfl, rfl, rfl⟩
    · rw [if_neg htd]
      exact ⟨_, rfl, rfl, rfl, rfl⟩
  · intro h
    simp [score_batch, h]
  · intro scored h
    simp [score_batch, h]

/-- Witness for C2: a raised scoring call on a one-article batch drops the
article, leaving the empty surviving set. -/
theorem scorer_fail_closed_witness :
    score_article (fun _ => .error ()) linkedArticle = none ∧
    score_batch (fun _ => .error ()) [linkedArticle] = [] := by
  have h := scorer_fail_closed (fun _ => .error ()) linkedArticle []
  have h1 := h.1 rfl
  exact ⟨h1, h.2.2.2.2.1 h1⟩

/-- Helper: inserting is a permutation of consing. -/
theorem insertByScore_perm (a : Article) (l : List Article) :
    List.Perm (insertByScore a l) (a :: l) := by
  induction l with
  | nil => exact List.Perm.refl _
  | cons b bs ih =>
    unfold insertByScore
    by_cases h : sortKey b ≤ sortKey a
    · rw [if_pos h]
    · rw [if_neg h]
      exact (List.Perm.cons b ih).trans (List.Perm.swap a b bs)

/-- Helper: the stable sort is a permutation of its input. -/
theorem sortByScoreDesc_perm (l : List Article) :
    List.Perm (sortByScoreDesc l) l := by
  induction l with
  | nil => exact List.Perm.refl _
  | cons a rest ih =>
    exact (insertByScore_perm a (sortByScoreDesc rest)).trans
      (List.Perm.cons a ih)

/-- Helper: inserting into a descending list keeps it descending. -/
theorem pairwise_insertByScore (a : Article) (l : List Article)
    (hl : l.Pairwise (fun x y => sortKey y ≤ sortKey x)) :
    (insertByScore a l).Pairwise (fun x y => sortKey y ≤ sortKey x) := by
  induction l with
  | nil => simp [insertByScore]
  | cons b bs ih =>
    rcases List.pairwise_cons.mp hl with ⟨hb, hbs⟩
    unfold insertByScore
    by_cases h : sortKey b ≤ sortKey a
    · rw [if_pos h]
      refine List.pairwise_cons.mpr ⟨?_, hl⟩
      intro x hx
      rcases List.mem_cons.mp hx with rfl | hx'
      · exact h
      · exact (hb x hx').trans h
    · rw [if_neg h]
      refine List.pairwise_cons.mpr ⟨?_, ih hbs⟩
      intro x hx
      have hmem : x = a ∨ x ∈ bs := by
        have hx2 := (insertByScore_perm a bs).mem_iff.mp hx
        simpa using hx2
      rcases hmem with rfl | hx'
      · exact le_of_not_le h
      · exact hb x hx'

/-- Helper: the whole sort output is descending in the sort key. -/
theorem pairwise_sortByScoreDesc (l : List Article) :
    (sortByScoreDesc l).Pairwise (fun x y => sortKey y ≤ sortKey x) := by
  induction l with
  | nil => simp [sortByScoreDesc]
  | cons a rest ih => exact pairwise_insertByScore a _ ih

/-- Helper: insertion commutes with filtering at a fixed key value — the
skipped elements all have strictly larger keys, so the inserted element
lands in front of every equal-keyed one. -/
theorem filter_insertByScore (a : Article) (k : Int) (l : List Article) :
    (insertByScore a l).filter (fun x => sortKey x == k) =
      (if sortKey a == k then a :: l.filter (fun x => sortKey x == k)
       else l.filter (fun x => sortKey x == k)) := by
  induction l with
  | nil => simp [insertByScore, List.filter_cons]
  | cons b bs ih =>
    unfold insertByScore
    by_cases h : sortKey b ≤ sortKey a
    · rw [if_pos h]
      simp only [List.filter_cons]
    · rw [if_neg h]
      rw [List.filter_cons, ih, List.filter_cons]
      by_cases hk : (sortKey a == k) = true
      · have hak : sortKey a = k := by simpa using hk
        have hbk : (sortKey b == k) = false := by
          have hgt : k < sortKey b := hak ▸ lt_of_not_le h
          simp [ne_of_gt hgt]
        simp [hk, hbk]
      · simp only [Bool.not_eq_true] at hk
        simp [hk]

/-- Helper: stability of the sort — filtering the output at any fixed key
value reproduces the input filtered at that key, i.e. equal-keyed articles
keep their original relative order. -/
theorem filter_sortByScoreDesc (k : Int) (l : List Article) :
    (sortByScoreDesc l).filter (fun x => sortKey x == k) =
      l.filter (fun x => sortKey x == k) := by
  induction l with
  | nil => rfl
  | cons a rest ih =>
    simp [sortByScoreDesc, filter_insertByScore, ih, List.filter_cons]

/-- C6: top-article selection is a pure function of the scored list — the
underlying sort is a permutation of the input, the output is descending in
the score key (`ai_score`, defaulting to 0), articles with equal keys keep
their input order (filtering at any key value is preserved), the output is
the length-min(count, N) initial segment of the sorted list, and empty
input yields empty output. -/
theorem ranker_top_articles (articles : List Article) (count : Nat) :
    List.Perm (sortByScoreDesc articles) articles ∧
    (get_top_articles articles count).Pairwise
      (fun x y => sortKey y ≤ sortKey x) ∧
    (∀ k : Int, (sortByScoreDesc articles).filter (fun x => sortKey x == k) =
      articles.filter (fun x => sortKey x == k)) ∧
    (∃ rest, sortByScoreDesc articles = get_top_articles articles count ++ rest) ∧
    (get_top_articles articles count).length = min count articles.length ∧
    get_top_articles ([] : List Article) count = [] := by
  refine ⟨sortByScoreDesc_perm articles, ?_,
    fun k => filter_sortByScoreDesc k articles,
    ⟨(sortByScoreDesc articles).drop count,
      (List.take_append_drop count (sortByScoreDesc articles)).symm⟩, ?_, ?_⟩
  · exact List.Pairwise.sublist (List.take_sublist count _)
      (pairwise_sortByScoreDesc articles)
  · rw [get_top_articles, List.length_take,
      (sortByScoreDesc_perm articles).length_eq]
  · simp [get_top_articles, sortByScoreDesc]

/-- Helper: annotation touches only the two image fields. -/
theorem imageStripped_annotateImage (r : Option String) (a : Article) :
    imageStripped (annotateImage r a) = imageStripped a := by
  unfold annotateImage
  cases generate_article_image r a with
  | none => rfl
  | some p =>
    by_cases hp : p = ""
    · simp [hp]
    · simp [hp, imageStripped]

/-- C10: the image-synthesis stage never drops an article — the output has
the length of the input and, with the two image-annotation fields erased,
is the input itself in order; it is the per-article annotation mapped over
the input; an already-truthy `imageUrl` is never overwritten; and when
image generation fails entirely for an article, the fallback image
reference is the top image previously stored by the content extractor. -/
theorem image_stage_only_annotates (gen : Article → Option String)
    (articles : List Article) :
    (generate_batch gen articles).length = articles.length ∧
    (generate_batch gen articles).map imageStripped =
      articles.map imageStripped ∧
    generate_batch gen articles =
      articles.map (fun a => annotateImage (gen a) a) ∧
    (∀ a, truthyStr a.imageUrl = true →
      (annotateImage (gen a) a).imageUrl = a.imageUrl) ∧
    (∀ a, gen a = none →
      generate_article_image (gen a) a =
        a.scraped_content.bind (fun sd => sd.top_image)) := by
  refine ⟨by simp [generate_batch], ?_, rfl, ?_, ?_⟩
  · unfold generate_batch
    rw [List.map_map]
    apply List.map_congr_left
    intro a _
    exact imageStripped_annotateImage (gen a) a
  · intro a htruthy
    unfold annotateImage
    cases generate_article_image (gen a) a with
    | none => rfl
    | some p =>
      by_cases hp : p = ""
      · simp [hp]
      · simp [hp, htruthy]
  · intro a hgen
    rw [hgen]
    rfl

/-- An article that already carries a scraped top image. -/
def scrapedImageArticle : Article :=
  { link := some "https://example.ie/c"
    scraped_content := some { content := "body", top_image := some "top.png" } }

/-- Witness for C10: a total image-generation failure falls back to the
previously extracted top image. -/
theorem image_stage_only_annotates_witness :
    generate_article_image ((fun _ : Article => (none : Option String))
      scrapedImageArticle) scrapedImageArticle = some "top.png" :=
  ((image_stage_only_annotates (fun _ => none) []).2.2.2.2
    scrapedImageArticle rfl).trans rfl

end GlasApp
